import Mathlib

/-!
Shallow embedding of the workflow coordinator of the CV-tailoring app
(src/App.tsx) and its generation-service layer (src/services/geminiService.ts).

The React component state becomes an explicit `AppState` record; each async
handler becomes a pure function of the state, the freshly drawn toast id, and
the outcome of the external Generation Client call.  A ghost field `calls`
counts the Generation Client calls issued, so that claims about "no external
call" are statable.  `setTimeout`-scheduled steps (toast expiry, the 1000 ms
status reset in `handleFileUpload`) are modelled as separate step functions.
-/

/-- Mirrors `AppStatus` from src/types.ts. -/
inductive AppStatus where
  | IDLE
  | EXTRACTING
  | PARSING
  | OPTIMIZING
  | GENERATING_COVER_LETTER
  | ERROR
  | SUCCESS
deriving DecidableEq, Repr

/-- Mirrors the literal union type (success | error | info) of `ToastMessage.type`. -/
inductive ToastType where
  | success
  | error
  | info
deriving DecidableEq, Repr

/-- Mirrors `ToastMessage` from src/types.ts. -/
structure ToastMessage where
  id : String
  type : ToastType
  message : String
deriving DecidableEq, Repr

/-- Mirrors `ExtractedJobDetails` from src/types.ts. -/
structure ExtractedJobDetails where
  companyProfile : String
  jobDescription : String
  salaryBudget : String
  hrContact : String
  contactEmail : String
  previousHolder : String
  possibleManager : String
  teamMates : String
deriving DecidableEq, Repr

/-- Mirrors the two-valued `Tab` type (cv | cl) from src/App.tsx. -/
inductive Tab where
  | cv
  | cl
deriving DecidableEq, Repr

/-- The React `useState` fields of `App` (src/App.tsx lines 55 to 67), plus a
ghost counter `calls` of Generation Client calls issued.  The DOM refs are not
state and are omitted. -/
structure AppState where
  url : String
  companyProfile : String
  jobDescription : String
  otherDetails : String
  activeTab : Tab
  cvContent : String
  clContent : String
  status : AppStatus
  toasts : List ToastMessage
  isEditing : Bool
  showImportMenu : Bool
  calls : Nat
deriving DecidableEq, Repr

/-- Mirrors `DEFAULT_CV_PLACEHOLDER` (src/App.tsx lines 30 to 46). -/
def DEFAULT_CV_PLACEHOLDER : String :=
  "\n# John Doe\n**Software Engineer**\n\n## Professional Summary\nExperienced software engineer with a passion for building scalable web applications...\n\n## Experience\n**Senior Developer | Tech Corp**\n*Jan 2020 - Present*\n* Led a team of 5 developers...\n* Improved system performance by 30%...\n\n## Skills\n* JavaScript, TypeScript, React, Node.js\n* AWS, Docker, Kubernetes\n"

/-- Mirrors `DEFAULT_CL_PLACEHOLDER` (src/App.tsx lines 48 to 50). -/
def DEFAULT_CL_PLACEHOLDER : String :=
  "\nClick \"Generate Cover Letter\" to draft a tailored letter based on your Resume and the Job Description.\n"

/-- JavaScript string trim: strip whitespace from both ends.  Implemented by
structural recursion over the character list so that the kernel can evaluate
it on concrete inputs. -/
def jsTrim (s : String) : String :=
  String.mk (((s.data.dropWhile Char.isWhitespace).reverse.dropWhile Char.isWhitespace).reverse)

/-- Substring occurrence on character lists, by structural recursion on the
haystack. -/
def containsSub (needle : List Char) : List Char → Bool
  | [] => needle.isEmpty
  | h :: hs => needle.isPrefixOf (h :: hs) || containsSub needle hs

/-- JavaScript `hay.includes(needle)` as used in the file-type check. -/
def jsIncludes (hay needle : String) : Bool :=
  containsSub needle.data hay.data

/-- The initial component state given by the `useState` initialisers. -/
def initState : AppState where
  url := ""
  companyProfile := ""
  jobDescription := ""
  otherDetails := ""
  activeTab := .cv
  cvContent := jsTrim DEFAULT_CV_PLACEHOLDER
  clContent := jsTrim DEFAULT_CL_PLACEHOLDER
  status := .IDLE
  toasts := []
  isEditing := true
  showImportMenu := false
  calls := 0

/-- Mirrors `addToast` (src/App.tsx lines 86 to 92).  The source draws a random
9-character id with `Math.random().toString(36).substr(2, 9)`; the draw is an
external event, so the id is a parameter here.  The `setTimeout` removal after
5000 ms is modelled by `expireToast` below. -/
def addToast (freshId : String) (ttype : ToastType) (message : String) (s : AppState) : AppState :=
  { s with toasts := s.toasts ++ [{ id := freshId, type := ttype, message := message }] }

/-- Delay, in milliseconds, before the scheduled removal of a toast fires
(the literal `5000` in src/App.tsx line 91). -/
def toastTimeoutMs : Nat := 5000

/-- The body of the `setTimeout` scheduled by `addToast`: filters the toast
with the captured id out of the queue (src/App.tsx lines 89 to 91). -/
def expireToast (id : String) (s : AppState) : AppState :=
  { s with toasts := s.toasts.filter (fun t => t.id != id) }

/-- Mirrors `removeToast` (src/App.tsx lines 94 to 96). -/
def removeToast (id : String) (s : AppState) : AppState :=
  { s with toasts := s.toasts.filter (fun t => t.id != id) }

/-! Generation-service layer (src/services/geminiService.ts).  Each exported
function wraps one `ai.models.generateContent` call in a try/catch that maps
any failure to a fixed error message.  The outcome of the external call is a
parameter: either the transport layer failed (the call threw), or it returned
a response whose `text` field is modelled as a `String`, with `""` standing
for both an empty and a missing text. -/

/-- Outcome of a `generateContent` call whose `text` is consumed directly. -/
inductive TextOutcome where
  | transportFailure
  | response (text : String)
deriving DecidableEq, Repr

/-- Outcome of the `generateContent` call made by `extractJobDetails`: on a
response, `parsed` is the result of `JSON.parse` on the text (`none` when the
parse throws). -/
inductive ExtractOutcome where
  | transportFailure
  | response (text : String) (parsed : Option ExtractedJobDetails)
deriving DecidableEq, Repr

/-- The fixed message thrown by the catch block of `extractJobDetails`
(src/services/geminiService.ts line 88). -/
def extractFailMsg : String :=
  "Failed to extract job details. Please ensure the URL is valid or try pasting the details manually."

/-- The fixed message thrown by the catch block of `parseResumeFromMedia`
(src/services/geminiService.ts line 119). -/
def parseMediaFailMsg : String :=
  "Failed to read the resume file. Please try converting to a simpler PDF or Image, or copy-paste the text."

/-- The fixed message thrown by the catch block of `parseResumeFromText`
(src/services/geminiService.ts line 147). -/
def parseTextFailMsg : String :=
  "Failed to parse text content. Please try again."

/-- The fixed message thrown by the catch block of `optimizeCV`
(src/services/geminiService.ts line 199). -/
def optimizeFailMsg : String :=
  "Failed to optimize CV. Please try again."

/-- The fixed message thrown by the catch block of `generateCoverLetter`
(src/services/geminiService.ts line 246). -/
def coverLetterFailMsg : String :=
  "Failed to generate Cover Letter."

/-- Mirrors `extractJobDetails` (src/services/geminiService.ts lines 9 to 90):
a transport failure, an empty response text (`if (!text) throw`), and a JSON
parse failure are all caught and rethrown as the same fixed message. -/
def extractJobDetails : ExtractOutcome → Except String ExtractedJobDetails
  | .transportFailure => .error extractFailMsg
  | .response text parsed =>
    if text.isEmpty then .error extractFailMsg
    else
      match parsed with
      | some d => .ok d
      | none => .error extractFailMsg

/-- Mirrors `parseResumeFromMedia` (src/services/geminiService.ts lines 95 to 121). -/
def parseResumeFromMedia : TextOutcome → Except String String
  | .transportFailure => .error parseMediaFailMsg
  | .response text => if text.isEmpty then .error parseMediaFailMsg else .ok text

/-- Mirrors `parseResumeFromText` (src/services/geminiService.ts lines 126 to 149). -/
def parseResumeFromText : TextOutcome → Except String String
  | .transportFailure => .error parseTextFailMsg
  | .response text => if text.isEmpty then .error parseTextFailMsg else .ok text

/-- Mirrors `optimizeCV` (src/services/geminiService.ts lines 154 to 201). -/
def optimizeCV : TextOutcome → Except String String
  | .transportFailure => .error optimizeFailMsg
  | .response text => if text.isEmpty then .error optimizeFailMsg else .ok text

/-- Mirrors `generateCoverLetter` (src/services/geminiService.ts lines 206 to 248). -/
def generateCoverLetter : TextOutcome → Except String String
  | .transportFailure => .error coverLetterFailMsg
  | .response text => if text.isEmpty then .error coverLetterFailMsg else .ok text

/-- The template literal `formattedDetails` built on a successful extraction
(src/App.tsx lines 110 to 123). -/
def formatOtherDetails (d : ExtractedJobDetails) : String :=
  "Salary Budget: " ++ d.salaryBudget ++
  "\n\nHR Contact: " ++ d.hrContact ++
  "\n\nEmail: " ++ d.contactEmail ++
  "\n\nPrevious/Current Holder:\n" ++ d.previousHolder ++
  "\n\nPossible Manager:\n" ++ d.possibleManager ++
  "\n\nPossible Team Mates:\n" ++ d.teamMates

/-- Mirrors `handleExtract` (src/App.tsx lines 98 to 132).  `freshId` is the
id `addToast` draws for the toast this run pushes; `o` is the outcome of the
external call (consumed only when the URL guard passes). -/
def handleExtract (s : AppState) (freshId : String) (o : ExtractOutcome) : AppState :=
  if (jsTrim s.url).isEmpty then
    addToast freshId .error "Please enter a valid URL" s
  else
    let s1 : AppState := { s with status := .EXTRACTING, calls := s.calls + 1 }
    let s2 : AppState :=
      match extractJobDetails o with
      | .ok details =>
        addToast freshId .success "Job details extracted successfully!"
          { s1 with
              companyProfile := details.companyProfile
              jobDescription := details.jobDescription
              otherDetails := formatOtherDetails details }
      | .error msg =>
        addToast freshId .error (if msg.isEmpty then "Failed to extract data" else msg) s1
    { s2 with status := .IDLE }

/-- Mirrors `handleOptimize` (src/App.tsx lines 134 to 156). -/
def handleOptimize (s : AppState) (freshId : String) (o : TextOutcome) : AppState :=
  if (jsTrim s.companyProfile).isEmpty || (jsTrim s.jobDescription).isEmpty then
    addToast freshId .error "Please extract job details first" s
  else if (jsTrim s.cvContent).isEmpty then
    addToast freshId .error "Please ensure your current CV is in the editor" s
  else
    let s1 : AppState := { s with status := .OPTIMIZING, calls := s.calls + 1 }
    let s2 : AppState :=
      match optimizeCV o with
      | .ok optimized =>
        addToast freshId .success "CV optimized successfully!"
          { s1 with cvContent := optimized, activeTab := .cv, isEditing := false }
      | .error msg =>
        addToast freshId .error (if msg.isEmpty then "Failed to optimize CV" else msg) s1
    { s2 with status := .IDLE }

/-- Mirrors `handleGenerateCoverLetter` (src/App.tsx lines 158 to 180). -/
def handleGenerateCoverLetter (s : AppState) (freshId : String) (o : TextOutcome) : AppState :=
  if (jsTrim s.companyProfile).isEmpty || (jsTrim s.jobDescription).isEmpty then
    addToast freshId .error "Please extract job details first" s
  else if (jsTrim s.cvContent).isEmpty then
    addToast freshId .error "Please ensure your current CV is in the editor" s
  else
    let s1 : AppState := { s with status := .GENERATING_COVER_LETTER, calls := s.calls + 1 }
    let s2 : AppState :=
      match generateCoverLetter o with
      | .ok letter =>
        addToast freshId .success "Cover Letter generated!"
          { s1 with clContent := letter, activeTab := .cl, isEditing := false }
      | .error msg =>
        addToast freshId .error (if msg.isEmpty then "Failed to generate Cover Letter" else msg) s1
    { s2 with status := .IDLE }

/-- Outcome of `navigator.clipboard.readText()` in `handlePasteFromGoogleDoc`. -/
inductive ClipboardOutcome where
  | readFailure
  | readText (text : String)
deriving DecidableEq, Repr

/-- Mirrors `handlePasteFromGoogleDoc` (src/App.tsx lines 217 to 240).  The
early return on an empty clipboard and the catch both still run the `finally`,
which sets the status to IDLE. -/
def handlePasteFromGoogleDoc (s : AppState) (freshId : String) (c : ClipboardOutcome)
    (o : TextOutcome) : AppState :=
  let s0 : AppState := { s with showImportMenu := false }
  match c with
  | .readFailure =>
    { addToast freshId .error "Failed to read clipboard. Please allow permissions." s0 with
        status := .IDLE }
  | .readText text =>
    if text.isEmpty || (jsTrim text).isEmpty then
      { addToast freshId .error "Clipboard is empty. Copy your CV text first." s0 with
          status := .IDLE }
    else
      let s1 : AppState := { s0 with status := .PARSING, calls := s0.calls + 1 }
      let s2 : AppState :=
        match parseResumeFromText o with
        | .ok extractedText =>
          addToast freshId .success "Pasted content formatted successfully!"
            { s1 with cvContent := extractedText, activeTab := .cv, isEditing := true }
        | .error _ =>
          addToast freshId .error "Failed to read clipboard. Please allow permissions." s1
      { s2 with status := .IDLE }

/-- The `event.target.files` content seen by `handleFileUpload`: either no
file was selected, or a file with the given MIME type. -/
inductive FileEvent where
  | noFile
  | file (mimeType : String)
deriving DecidableEq, Repr

/-- Outcome of the `FileReader` read: `onerror` or `onload`. -/
inductive ReadOutcome where
  | readError
  | readOk
deriving DecidableEq, Repr

/-- The synchronous part of `handleFileUpload` (src/App.tsx lines 182 to 215):
close the menu, return early when no file is selected or the MIME type is
neither PDF nor image, otherwise set the status to PARSING and register the
`FileReader` callbacks.  The returned flag is true exactly when the callbacks
were registered, i.e. when the `try` block ran; only then is the 1000 ms
status-reset timer scheduled by the `finally` (the early returns at lines 185
and 189 happen before the `try`). -/
def handleFileUploadSync (s : AppState) (freshId : String) (ev : FileEvent) :
    AppState × Bool :=
  let s0 : AppState := { s with showImportMenu := false }
  match ev with
  | .noFile => (s0, false)
  | .file mimeType =>
    if !jsIncludes mimeType "pdf" && !jsIncludes mimeType "image" then
      (addToast freshId .error "Please upload a PDF or Image file." s0, false)
    else
      ({ s0 with status := .PARSING }, true)

/-- The `FileReader` completion handler of `handleFileUpload`.  On `onerror`:
an error toast and a status reset.  On `onload`: the base64 payload is sent to
`parseResumeFromMedia`; on success the resume buffer, tab and edit mode are
set and a success toast pushed.  When `parseResumeFromMedia` rejects, the
rejection happens inside the async `onload` callback, outside the try/catch of
the handler (which only wrapped the synchronous callback registration), so it is
an unhandled promise rejection: no toast is pushed and no state is changed. -/
def fileUploadCallback (s : AppState) (freshId : String) (rd : ReadOutcome)
    (o : TextOutcome) : AppState :=
  match rd with
  | .readError =>
    { addToast freshId .error "Failed to read file." s with status := .IDLE }
  | .readOk =>
    let s1 : AppState := { s with calls := s.calls + 1 }
    match parseResumeFromMedia o with
    | .ok extractedText =>
      addToast freshId .success "CV imported successfully!"
        { s1 with cvContent := extractedText, activeTab := .cv, isEditing := true }
    | .error _ => s1

/-- The timer scheduled by the `finally` of `handleFileUpload`:
`setTimeout(() => setStatus(AppStatus.IDLE), 1000)` (src/App.tsx line 212). -/
def fileUploadTimer (s : AppState) : AppState :=
  { s with status := .IDLE }

/-- A full run of `handleFileUpload` to quiescence: the synchronous part, then
(when the callbacks were registered) the reader completion handler and the
1000 ms status-reset timer.  The timer and the completion handler may fire in
either order; the two orders yield the same quiescent state, and this function
uses callback-then-timer. -/
def handleFileUpload (s : AppState) (freshId : String) (ev : FileEvent)
    (rd : ReadOutcome) (o : TextOutcome) : AppState :=
  match handleFileUploadSync s freshId ev with
  | (s1, false) => s1
  | (s1, true) => fileUploadTimer (fileUploadCallback s1 freshId rd o)

/-! Helper lemmas, shared infrastructure for the claims below. -/

/-- A concrete state whose URL, job fields and resume buffer are nonempty,
used to instantiate the hypothesis-bearing theorems. -/
def demoState : AppState :=
  { initState with
      url := "https://example.com/job"
      companyProfile := "Acme Corp builds rockets."
      jobDescription := "Senior Engineer role."
      cvContent := "# John Doe, Engineer" }

/-- A concrete extraction result used to instantiate theorems about a
successful ExtractJobDetails call. -/
def demoDetails : ExtractedJobDetails where
  companyProfile := "Acme Corp builds rockets."
  jobDescription := "Senior Engineer role."
  salaryBudget := "100k"
  hrContact := "Jane Doe"
  contactEmail := "hr-contact@acme.example"
  previousHolder := "John Smith"
  possibleManager := "Mary Major"
  teamMates := "Alice, Bob"

/-- Status after a full `handleExtract` run is IDLE whenever it started IDLE. -/
theorem statusIdleExtract (s : AppState) (freshId : String) (o : ExtractOutcome)
    (h : s.status = AppStatus.IDLE) :
    (handleExtract s freshId o).status = AppStatus.IDLE := by
  unfold handleExtract
  split
  · simpa [addToast] using h
  · split <;> simp [addToast]

/-- Status after a full `handleOptimize` run is IDLE whenever it started IDLE. -/
theorem statusIdleOptimize (s : AppState) (freshId : String) (o : TextOutcome)
    (h : s.status = AppStatus.IDLE) :
    (handleOptimize s freshId o).status = AppStatus.IDLE := by
  unfold handleOptimize
  split
  · simpa [addToast] using h
  · split
    · simpa [addToast] using h
    · split <;> simp [addToast]

/-- Status after a full `handleGenerateCoverLetter` run is IDLE whenever it
started IDLE. -/
theorem statusIdleGenerate (s : AppState) (freshId : String) (o : TextOutcome)
    (h : s.status = AppStatus.IDLE) :
    (handleGenerateCoverLetter s freshId o).status = AppStatus.IDLE := by
  unfold handleGenerateCoverLetter
  split
  · simpa [addToast] using h
  · split
    · simpa [addToast] using h
    · split <;> simp [addToast]

/-- Status after a full `handlePasteFromGoogleDoc` run is IDLE on every path
(the finally clause forces it). -/
theorem statusIdlePaste (s : AppState) (freshId : String) (c : ClipboardOutcome)
    (o : TextOutcome) :
    (handlePasteFromGoogleDoc s freshId c o).status = AppStatus.IDLE := by
  cases c with
  | readFailure => simp [handlePasteFromGoogleDoc, addToast]
  | readText text =>
    unfold handlePasteFromGoogleDoc
    split
    · simp [addToast]
    · split <;> simp [addToast]

/-- Status after a full quiescent `handleFileUpload` run is IDLE whenever it
started IDLE. -/
theorem statusIdleFile (s : AppState) (freshId : String) (ev : FileEvent)
    (rd : ReadOutcome) (o : TextOutcome) (h : s.status = AppStatus.IDLE) :
    (handleFileUpload s freshId ev rd o).status = AppStatus.IDLE := by
  cases ev with
  | noFile => simpa [handleFileUpload, handleFileUploadSync] using h
  | file mime =>
    unfold handleFileUpload handleFileUploadSync
    by_cases hm : (!jsIncludes mime "pdf" && !jsIncludes mime "image") = true
    · simp [hm, addToast, h]
    · simp [hm, fileUploadTimer]

/-- Joining the six labeled blocks with blank-line separators yields exactly
the template literal shape used by `formatOtherDetails`. -/
theorem intercalateSixBlocks (x y z w m t : String) :
    String.intercalate "\n\n"
      ["Salary Budget: " ++ x, "HR Contact: " ++ y, "Email: " ++ z,
       "Previous/Current Holder:\n" ++ w, "Possible Manager:\n" ++ m,
       "Possible Team Mates:\n" ++ t]
    = "Salary Budget: " ++ x ++ "\n\nHR Contact: " ++ y ++ "\n\nEmail: " ++ z ++
      "\n\nPrevious/Current Holder:\n" ++ w ++ "\n\nPossible Manager:\n" ++ m ++
      "\n\nPossible Team Mates:\n" ++ t := by
  have m1 : forall r : String, "\n\n" ++ ("HR Contact: " ++ r) = "\n\nHR Contact: " ++ r := by
    intro r; rw [← String.append_assoc]; rfl
  have m2 : forall r : String, "\n\n" ++ ("Email: " ++ r) = "\n\nEmail: " ++ r := by
    intro r; rw [← String.append_assoc]; rfl
  have m3 : forall r : String,
      "\n\n" ++ ("Previous/Current Holder:\n" ++ r) = "\n\nPrevious/Current Holder:\n" ++ r := by
    intro r; rw [← String.append_assoc]; rfl
  have m4 : forall r : String,
      "\n\n" ++ ("Possible Manager:\n" ++ r) = "\n\nPossible Manager:\n" ++ r := by
    intro r; rw [← String.append_assoc]; rfl
  have m5 : forall r : String,
      "\n\n" ++ ("Possible Team Mates:\n" ++ r) = "\n\nPossible Team Mates:\n" ++ r := by
    intro r; rw [← String.append_assoc]; rfl
  simp only [String.intercalate, String.intercalate.go, String.append_assoc]
  rw [m1, m2, m3, m4, m5]

/-! Claims. -/

/-- C1: the claim says every operation ends in exactly one of
(success effect applied, error notification pushed).  The code violates it:
when the file-import parse call rejects, the rejection happens inside the
async `onload` callback, outside the try/catch of `handleFileUpload`, so it is
an unhandled promise rejection.  Evaluating the model at that failing input,
the quiescent state is the initial state except for the issued call: the
resume buffer is untouched and no notification of any kind was pushed. -/
theorem fileImportParseFailureIsSilent :
    handleFileUpload initState "t1" (.file "application/pdf") .readOk .transportFailure
      = { initState with calls := 1 } := rfl

/-- Counterexample for C2: in a successful file import whose completion
handler finishes before the 1000 ms timer fires, the state immediately after
the completion handler still has status PARSING, not IDLE, because the
`onload` success path never resets the status (only the timer scheduled at
invocation does). -/
theorem fileImportCompletionHandlerLeavesParsing :
    initState.status = AppStatus.IDLE ∧
    (fileUploadCallback (handleFileUploadSync initState "t1" (.file "application/pdf")).1 "t1"
        .readOk (.response "My CV")).status = AppStatus.PARSING :=
  ⟨rfl, rfl⟩

/-- C2 (amended): for every operation invoked from status IDLE and every
outcome of the external call, the quiescent status, after all completion
handlers and scheduled timers have run, is IDLE; for the file-import
operation the reset on the parse paths comes from the timer scheduled at
invocation rather than from the completion handler itself. -/
theorem allOperationsQuiesceToIdle (s : AppState) (freshId : String)
    (h : s.status = AppStatus.IDLE) (oe : ExtractOutcome) (oo og op ot : TextOutcome)
    (c : ClipboardOutcome) (ev : FileEvent) (rd : ReadOutcome) :
    (handleExtract s freshId oe).status = AppStatus.IDLE ∧
    (handleOptimize s freshId oo).status = AppStatus.IDLE ∧
    (handleGenerateCoverLetter s freshId og).status = AppStatus.IDLE ∧
    (handlePasteFromGoogleDoc s freshId c op).status = AppStatus.IDLE ∧
    (handleFileUpload s freshId ev rd ot).status = AppStatus.IDLE :=
  ⟨statusIdleExtract s freshId oe h, statusIdleOptimize s freshId oo h,
   statusIdleGenerate s freshId og h, statusIdlePaste s freshId c op,
   statusIdleFile s freshId ev rd ot h⟩

/-- Witness for the amended C2 at a concrete IDLE state and concrete outcomes. -/
theorem allOperationsQuiesceToIdle_witness :
    (handleExtract demoState "w2" ExtractOutcome.transportFailure).status = AppStatus.IDLE ∧
    (handleOptimize demoState "w2" TextOutcome.transportFailure).status = AppStatus.IDLE ∧
    (handleGenerateCoverLetter demoState "w2" TextOutcome.transportFailure).status
      = AppStatus.IDLE ∧
    (handlePasteFromGoogleDoc demoState "w2" ClipboardOutcome.readFailure
        TextOutcome.transportFailure).status = AppStatus.IDLE ∧
    (handleFileUpload demoState "w2" FileEvent.noFile ReadOutcome.readError
        TextOutcome.transportFailure).status = AppStatus.IDLE :=
  allOperationsQuiesceToIdle demoState "w2" rfl ExtractOutcome.transportFailure
    TextOutcome.transportFailure TextOutcome.transportFailure TextOutcome.transportFailure
    TextOutcome.transportFailure ClipboardOutcome.readFailure FileEvent.noFile
    ReadOutcome.readError

/-- C3: a successful ExtractJobDetails overwrites companyProfile and
jobDescription with the extracted values and sets otherDetails to the
concatenation of the six secondary JobDetails fields in the fixed order
salary, HR contact, email, previous holder, manager, teammates, separated by
blank lines, each in its own labeled block. -/
theorem extractSuccessPopulatesJobFields (s : AppState) (freshId text : String)
    (d : ExtractedJobDetails) (hurl : (jsTrim s.url).isEmpty = false)
    (htext : text.isEmpty = false) :
    (handleExtract s freshId (.response text (some d))).companyProfile = d.companyProfile ∧
    (handleExtract s freshId (.response text (some d))).jobDescription = d.jobDescription ∧
    (handleExtract s freshId (.response text (some d))).otherDetails =
      String.intercalate "\n\n"
        ["Salary Budget: " ++ d.salaryBudget, "HR Contact: " ++ d.hrContact,
         "Email: " ++ d.contactEmail, "Previous/Current Holder:\n" ++ d.previousHolder,
         "Possible Manager:\n" ++ d.possibleManager,
         "Possible Team Mates:\n" ++ d.teamMates] := by
  refine ⟨?_, ?_, ?_⟩ <;>
    simp [handleExtract, extractJobDetails, addToast, hurl, htext, formatOtherDetails,
      intercalateSixBlocks]

/-- Witness for C3 at a concrete state and a concrete extraction result. -/
theorem extractSuccessPopulatesJobFields_witness :
    (handleExtract demoState "w3" (.response "ok" (some demoDetails))).companyProfile
      = demoDetails.companyProfile ∧
    (handleExtract demoState "w3" (.response "ok" (some demoDetails))).jobDescription
      = demoDetails.jobDescription ∧
    (handleExtract demoState "w3" (.response "ok" (some demoDetails))).otherDetails =
      String.intercalate "\n\n"
        ["Salary Budget: " ++ demoDetails.salaryBudget,
         "HR Contact: " ++ demoDetails.hrContact,
         "Email: " ++ demoDetails.contactEmail,
         "Previous/Current Holder:\n" ++ demoDetails.previousHolder,
         "Possible Manager:\n" ++ demoDetails.possibleManager,
         "Possible Team Mates:\n" ++ demoDetails.teamMates] :=
  extractSuccessPopulatesJobFields demoState "w3" "ok" demoDetails (by decide) (by decide)

/-- Counterexample for C4: the toast id is drawn by `Math.random` with no
uniqueness guarantee, so two pushes can carry the same id; dismissing by that
id then removes both notifications, not exactly one. -/
theorem duplicateToastIdDismissalRemovesBoth :
    ((addToast "dup" .info "second" (addToast "dup" .info "first" initState)).toasts.map
        ToastMessage.id) = ["dup", "dup"] ∧
    (removeToast "dup"
        (addToast "dup" .info "second" (addToast "dup" .info "first" initState))).toasts = [] :=
  ⟨rfl, rfl⟩

/-- C4 (amended): the notification id is a pseudorandom token that the code
does not guarantee unique; provided the drawn id does not already occur in the
queue, the scheduled expiry (after the fixed 5000 ms delay) and an explicit
dismissal each remove exactly that notification and leave every other queued
notification, and its own expiry step, unchanged (expiry of another id and the
dismissal commute). -/
theorem freshToastIdLifecycleExact (s : AppState) (freshId other : String)
    (ty : ToastType) (msg : String)
    (hfresh : ∀ t ∈ s.toasts, t.id ≠ freshId) :
    toastTimeoutMs = 5000 ∧
    (removeToast freshId (addToast freshId ty msg s)).toasts = s.toasts ∧
    (expireToast freshId (addToast freshId ty msg s)).toasts = s.toasts ∧
    (expireToast other (removeToast freshId (addToast freshId ty msg s))).toasts =
      (removeToast freshId (expireToast other (addToast freshId ty msg s))).toasts := by
  have hkeep : s.toasts.filter (fun t => t.id != freshId) = s.toasts := by
    apply List.filter_eq_self.mpr
    intro t ht
    simpa using hfresh t ht
  refine ⟨rfl, ?_, ?_, ?_⟩
  · simp [removeToast, addToast, List.filter_append, hkeep]
  · simp [expireToast, addToast, List.filter_append, hkeep]
  · simp only [expireToast, removeToast, addToast, List.filter_filter]
    congr 1
    ext t
    exact Bool.and_comm _ _

/-- Witness for the amended C4: a fresh id on the empty queue. -/
theorem freshToastIdLifecycleExact_witness :
    toastTimeoutMs = 5000 ∧
    (removeToast "w4" (addToast "w4" ToastType.success "hello" demoState)).toasts
      = demoState.toasts ∧
    (expireToast "w4" (addToast "w4" ToastType.success "hello" demoState)).toasts
      = demoState.toasts ∧
    (expireToast "zz" (removeToast "w4" (addToast "w4" ToastType.success "hello" demoState))).toasts
      = (removeToast "w4" (expireToast "zz" (addToast "w4" ToastType.success "hello" demoState))).toasts :=
  freshToastIdLifecycleExact demoState "w4" "zz" ToastType.success "hello" (by decide)

/-- C5: invoking OptimizeResume or GenerateCoverLetter with an empty (after
trimming) companyProfile, jobDescription or resume content pushes an error
notification, issues no Generation Client call, and leaves the status
unchanged. -/
theorem optimizePreconditionFailureNoCall (s : AppState) (freshId : String)
    (oo og : TextOutcome)
    (h : (jsTrim s.companyProfile).isEmpty = true ∨ (jsTrim s.jobDescription).isEmpty = true ∨
         (jsTrim s.cvContent).isEmpty = true) :
    ((handleOptimize s freshId oo).calls = s.calls ∧
     (handleOptimize s freshId oo).status = s.status ∧
     ∃ t : ToastMessage, (handleOptimize s freshId oo).toasts = s.toasts ++ [t] ∧
       t.type = ToastType.error) ∧
    ((handleGenerateCoverLetter s freshId og).calls = s.calls ∧
     (handleGenerateCoverLetter s freshId og).status = s.status ∧
     ∃ t : ToastMessage, (handleGenerateCoverLetter s freshId og).toasts = s.toasts ++ [t] ∧
       t.type = ToastType.error) := by
  by_cases h1 : ((jsTrim s.companyProfile).isEmpty || (jsTrim s.jobDescription).isEmpty) = true
  · constructor <;> simp [handleOptimize, handleGenerateCoverLetter, addToast, h1]
  · have h2 : (jsTrim s.cvContent).isEmpty = true := by
      rcases h with h | h | h
      · simp [h] at h1
      · simp [h] at h1
      · exact h
    constructor <;> simp [handleOptimize, handleGenerateCoverLetter, addToast, h1, h2]

/-- Witness for C5: the initial state has empty job fields. -/
theorem optimizePreconditionFailureNoCall_witness :
    ((handleOptimize initState "w5" TextOutcome.transportFailure).calls = initState.calls ∧
     (handleOptimize initState "w5" TextOutcome.transportFailure).status = initState.status ∧
     ∃ t : ToastMessage,
       (handleOptimize initState "w5" TextOutcome.transportFailure).toasts
         = initState.toasts ++ [t] ∧ t.type = ToastType.error) ∧
    ((handleGenerateCoverLetter initState "w5" TextOutcome.transportFailure).calls
       = initState.calls ∧
     (handleGenerateCoverLetter initState "w5" TextOutcome.transportFailure).status
       = initState.status ∧
     ∃ t : ToastMessage,
       (handleGenerateCoverLetter initState "w5" TextOutcome.transportFailure).toasts
         = initState.toasts ++ [t] ∧ t.type = ToastType.error) :=
  optimizePreconditionFailureNoCall initState "w5" TextOutcome.transportFailure
    TextOutcome.transportFailure (Or.inl (by decide))

/-- C6: invoking ExtractJobDetails with an empty or whitespace-only URL pushes
the validation error notification, issues no Generation Client call, and
leaves the status unchanged. -/
theorem extractEmptyUrlNoCall (s : AppState) (freshId : String) (o : ExtractOutcome)
    (h : (jsTrim s.url).isEmpty = true) :
    (handleExtract s freshId o).calls = s.calls ∧
    (handleExtract s freshId o).status = s.status ∧
    (handleExtract s freshId o).toasts =
      s.toasts ++ [{ id := freshId, type := ToastType.error,
                     message := "Please enter a valid URL" }] := by
  refine ⟨?_, ?_, ?_⟩ <;> simp [handleExtract, addToast, h]

/-- Witness for C6: the initial state has an empty URL. -/
theorem extractEmptyUrlNoCall_witness :
    (handleExtract initState "w6" ExtractOutcome.transportFailure).calls = initState.calls ∧
    (handleExtract initState "w6" ExtractOutcome.transportFailure).status = initState.status ∧
    (handleExtract initState "w6" ExtractOutcome.transportFailure).toasts =
      initState.toasts ++ [{ id := "w6", type := ToastType.error,
                             message := "Please enter a valid URL" }] :=
  extractEmptyUrlNoCall initState "w6" ExtractOutcome.transportFailure (by decide)

/-- C7: a successful OptimizeResume call replaces the resume buffer exactly
with the Generation Client response text, sets the active tab to Resume, and
switches the view mode to Previewing (isEditing = false). -/
theorem optimizeSuccessReplacesResume (s : AppState) (freshId text : String)
    (hcp : (jsTrim s.companyProfile).isEmpty = false)
    (hjd : (jsTrim s.jobDescription).isEmpty = false)
    (hcv : (jsTrim s.cvContent).isEmpty = false) (htext : text.isEmpty = false) :
    (handleOptimize s freshId (.response text)).cvContent = text ∧
    (handleOptimize s freshId (.response text)).activeTab = Tab.cv ∧
    (handleOptimize s freshId (.response text)).isEditing = false := by
  refine ⟨?_, ?_, ?_⟩ <;> simp [handleOptimize, optimizeCV, addToast, hcp, hjd, hcv, htext]

/-- Witness for C7 at a concrete state with all preconditions satisfied. -/
theorem optimizeSuccessReplacesResume_witness :
    (handleOptimize demoState "w7" (.response "Optimized CV")).cvContent = "Optimized CV" ∧
    (handleOptimize demoState "w7" (.response "Optimized CV")).activeTab = Tab.cv ∧
    (handleOptimize demoState "w7" (.response "Optimized CV")).isEditing = false :=
  optimizeSuccessReplacesResume demoState "w7" "Optimized CV" (by decide) (by decide)
    (by decide) (by decide)

/-- C8: a successful ImportResume, in both the file and the clipboard variant,
replaces the resume buffer with the parsed text, sets the active tab to
Resume, and switches the view mode to Editing (isEditing = true), while
successful OptimizeResume and GenerateCoverLetter calls switch it to
Previewing (isEditing = false). -/
theorem importSuccessSetsEditingMode (s : AppState) (freshId mime text clipText : String)
    (hmime : jsIncludes mime "pdf" = true ∨ jsIncludes mime "image" = true)
    (htext : text.isEmpty = false)
    (hclip : clipText.isEmpty = false) (hcliptrim : (jsTrim clipText).isEmpty = false)
    (hcp : (jsTrim s.companyProfile).isEmpty = false)
    (hjd : (jsTrim s.jobDescription).isEmpty = false)
    (hcv : (jsTrim s.cvContent).isEmpty = false) :
    ((handleFileUpload s freshId (.file mime) .readOk (.response text)).cvContent = text ∧
     (handleFileUpload s freshId (.file mime) .readOk (.response text)).activeTab = Tab.cv ∧
     (handleFileUpload s freshId (.file mime) .readOk (.response text)).isEditing = true) ∧
    ((handlePasteFromGoogleDoc s freshId (.readText clipText) (.response text)).cvContent
       = text ∧
     (handlePasteFromGoogleDoc s freshId (.readText clipText) (.response text)).activeTab
       = Tab.cv ∧
     (handlePasteFromGoogleDoc s freshId (.readText clipText) (.response text)).isEditing
       = true) ∧
    (handleOptimize s freshId (.response text)).isEditing = false ∧
    (handleGenerateCoverLetter s freshId (.response text)).isEditing = false := by
  have hm : (!jsIncludes mime "pdf" && !jsIncludes mime "image") = false := by
    rcases hmime with h | h <;> simp [h]
  refine ⟨?_, ?_, ?_, ?_⟩
  · refine ⟨?_, ?_, ?_⟩ <;>
      simp [handleFileUpload, handleFileUploadSync, fileUploadCallback, fileUploadTimer,
        parseResumeFromMedia, addToast, hm, htext]
  · refine ⟨?_, ?_, ?_⟩ <;>
      simp [handlePasteFromGoogleDoc, parseResumeFromText, addToast, hclip, hcliptrim, htext]
  · simp [handleOptimize, optimizeCV, addToast, hcp, hjd, hcv, htext]
  · simp [handleGenerateCoverLetter, generateCoverLetter, addToast, hcp, hjd, hcv, htext]

/-- Witness for C8 with a PDF MIME type and concrete texts. -/
theorem importSuccessSetsEditingMode_witness :
    ((handleFileUpload demoState "w8" (.file "application/pdf") .readOk
        (.response "Parsed CV")).cvContent = "Parsed CV" ∧
     (handleFileUpload demoState "w8" (.file "application/pdf") .readOk
        (.response "Parsed CV")).activeTab = Tab.cv ∧
     (handleFileUpload demoState "w8" (.file "application/pdf") .readOk
        (.response "Parsed CV")).isEditing = true) ∧
    ((handlePasteFromGoogleDoc demoState "w8" (.readText "raw cv text")
        (.response "Parsed CV")).cvContent = "Parsed CV" ∧
     (handlePasteFromGoogleDoc demoState "w8" (.readText "raw cv text")
        (.response "Parsed CV")).activeTab = Tab.cv ∧
     (handlePasteFromGoogleDoc demoState "w8" (.readText "raw cv text")
        (.response "Parsed CV")).isEditing = true) ∧
    (handleOptimize demoState "w8" (.response "Parsed CV")).isEditing = false ∧
    (handleGenerateCoverLetter demoState "w8" (.response "Parsed CV")).isEditing = false :=
  importSuccessSetsEditingMode demoState "w8" "application/pdf" "Parsed CV" "raw cv text"
    (Or.inl (by decide)) (by decide) (by decide) (by decide) (by decide) (by decide) (by decide)

/-- C9: at the service layer an empty-text response is handled exactly like a
transport failure in all five service functions, producing the same fixed
error; the callers that await these services inside their try block (here
OptimizeResume, at a state satisfying its preconditions) reach a state
identical to the transport-failure one, push an error notification and reset
the status to IDLE.  The claim also requires this of the file-import caller,
and there the code fails: at the failing input (file selected, read
succeeded, empty-text response) the raise is an unhandled rejection inside
`onload`, so the quiescent state shows the issued call and nothing else - no
notification is pushed. -/
theorem emptyResponseTreatedAsTransportFailure :
    (extractJobDetails (.response "" none) = extractJobDetails .transportFailure ∧
     extractJobDetails (.response "" (some demoDetails)) = extractJobDetails .transportFailure ∧
     extractJobDetails .transportFailure = Except.error extractFailMsg) ∧
    (parseResumeFromMedia (.response "") = parseResumeFromMedia .transportFailure ∧
     parseResumeFromMedia .transportFailure = Except.error parseMediaFailMsg) ∧
    (parseResumeFromText (.response "") = parseResumeFromText .transportFailure ∧
     parseResumeFromText .transportFailure = Except.error parseTextFailMsg) ∧
    (optimizeCV (.response "") = optimizeCV .transportFailure ∧
     optimizeCV .transportFailure = Except.error optimizeFailMsg) ∧
    (generateCoverLetter (.response "") = generateCoverLetter .transportFailure ∧
     generateCoverLetter .transportFailure = Except.error coverLetterFailMsg) ∧
    (handleOptimize demoState "w9" (.response "")
       = handleOptimize demoState "w9" .transportFailure ∧
     (handleOptimize demoState "w9" (.response "")).status = AppStatus.IDLE ∧
     (handleOptimize demoState "w9" (.response "")).toasts =
       demoState.toasts ++
         [{ id := "w9", type := ToastType.error, message := optimizeFailMsg }]) ∧
    handleFileUpload demoState "w9" (.file "application/pdf") .readOk (.response "")
      = { demoState with calls := demoState.calls + 1 } :=
  ⟨⟨rfl, rfl, rfl⟩, ⟨rfl, rfl⟩, ⟨rfl, rfl⟩, ⟨rfl, rfl⟩, ⟨rfl, rfl⟩,
   ⟨rfl, by decide, by decide⟩, rfl⟩

/-- C10: every operation leaves the buffers other than its target unchanged,
for every outcome: OptimizeResume and both ImportResume variants never touch
the cover-letter buffer, GenerateCoverLetter never touches the resume buffer,
and ExtractJobDetails touches neither document buffer. -/
theorem operationsPreserveUntargetedBuffers (s : AppState) (freshId : String)
    (oe : ExtractOutcome) (oo og op ot : TextOutcome) (c : ClipboardOutcome)
    (ev : FileEvent) (rd : ReadOutcome) :
    (handleOptimize s freshId oo).clContent = s.clContent ∧
    (handleFileUpload s freshId ev rd ot).clContent = s.clContent ∧
    (handlePasteFromGoogleDoc s freshId c op).clContent = s.clContent ∧
    (handleGenerateCoverLetter s freshId og).cvContent = s.cvContent ∧
    (handleExtract s freshId oe).cvContent = s.cvContent ∧
    (handleExtract s freshId oe).clContent = s.clContent := by
  refine ⟨?_, ?_, ?_, ?_, ?_, ?_⟩
  · unfold handleOptimize
    split
    · simp [addToast]
    · split
      · simp [addToast]
      · split <;> simp [addToast]
  · cases ev with
    | noFile => simp [handleFileUpload, handleFileUploadSync]
    | file mime =>
      unfold handleFileUpload handleFileUploadSync
      by_cases hm : (!jsIncludes mime "pdf" && !jsIncludes mime "image") = true
      · simp [hm, addToast]
      · cases rd with
        | readError => simp [hm, fileUploadTimer, fileUploadCallback, addToast]
        | readOk =>
          simp only [hm, Bool.false_eq_true, if_false, fileUploadTimer, fileUploadCallback]
          split <;> simp [addToast]
  · cases c with
    | readFailure => simp [handlePasteFromGoogleDoc, addToast]
    | readText text =>
      unfold handlePasteFromGoogleDoc
      split
      · simp [addToast]
      · split
        · simp [addToast]
        · split <;> simp [addToast]
  · unfold handleGenerateCoverLetter
    split
    · simp [addToast]
    · split
      · simp [addToast]
      · split <;> simp [addToast]
  · unfold handleExtract
    split
    · simp [addToast]
    · split <;> simp [addToast]
  · unfold handleExtract
    split
    · simp [addToast]
    · split <;> simp [addToast]
